import Mathlib

/-!
Shallow embedding of `src/backend/app.py` (Skill-Rank LLM Document Analyzer).

The repository is a single Flask application.  Its pure logic (extension
check, prompt construction, truncation, response normalization, the two
report fallbacks) is translated directly; the external collaborators
(the Gemini model together with `json.loads`, the PyMuPDF text extractor,
`werkzeug.secure_filename`) are abstracted as an `Oracle`, and the SQLite
store as an explicit `DB` state.  Python's dynamic-typing failure points
that the handlers can actually hit (`dict.get` on a non-dict raises
`AttributeError`; membership tests with an unhashable key raise
`TypeError`; binding a list/dict as an SQLite parameter raises
`InterfaceError`) are modelled with `Except PyErr`.
-/

/-- A JSON value, the result type of `json.loads` on a model response.
Numbers are modelled as rationals. -/
inductive Json where
  | null : Json
  | bool : Bool → Json
  | num : Rat → Json
  | str : String → Json
  | arr : List Json → Json
  | obj : List (String × Json) → Json

/-- A Python primitive (hashable, SQLite-bindable) JSON value: anything
that is not a list and not a dict. -/
def Json.isPrimitive : Json → Bool
  | .arr _ => false
  | .obj _ => false
  | _ => true

/-- `isinstance(v, dict)`. -/
def Json.isObj : Json → Bool
  | .obj _ => true
  | _ => false

/-- The body `jsonify({"error": msg})` used by every error return. -/
def errJson (msg : String) : Json :=
  Json.obj [("error", Json.str msg)]

/-- Render a rational the way `json.dumps` renders a number (only used for
stored columns; no claim inspects the rendering). -/
def dumpsNum (q : Rat) : String :=
  if q.den = 1 then toString q.num else toString q.num ++ "/" ++ toString q.den

mutual

/-- `json.dumps` on a JSON value (compact separators), used when the upload
handler serializes `missing_fields` and `recommendations` into the
`analysis_results` row. -/
def Json.dumps : Json → String
  | .null => "null"
  | .bool b => if b then "true" else "false"
  | .num q => dumpsNum q
  | .str s => "\"" ++ s ++ "\""
  | .arr xs => "[" ++ dumpsArr xs ++ "]"
  | .obj kvs => "\x7b" ++ dumpsObj kvs ++ "\x7d"

/-- Comma-joined rendering of a JSON array's elements. -/
def dumpsArr : List Json → String
  | [] => ""
  | [x] => Json.dumps x
  | x :: xs => Json.dumps x ++ ", " ++ dumpsArr xs

/-- Comma-joined rendering of a JSON object's entries. -/
def dumpsObj : List (String × Json) → String
  | [] => ""
  | [(k, v)] => "\"" ++ k ++ "\": " ++ Json.dumps v
  | (k, v) :: kvs => "\"" ++ k ++ "\": " ++ Json.dumps v ++ ", " ++ dumpsObj kvs

end

/-- The Python exceptions the request handlers can raise outside a
`try` block (uncaught, they make Flask answer 500). -/
inductive PyErr where
  | attributeError : PyErr
  | typeError : PyErr
  | interfaceError : PyErr
deriving DecidableEq

/-- The message Flask would interpolate for the exception (only its
existence matters to the claims). -/
def pyErrMessage : PyErr → String
  | .attributeError => "AttributeError"
  | .typeError => "TypeError"
  | .interfaceError => "InterfaceError"

/-- Python `v.get(key, default)`: defaulted lookup when `v` is a dict,
`AttributeError` otherwise (e.g. when `json.loads` produced a list). -/
def pyDictGet (v : Json) (key : String) (default : Json) : Except PyErr Json :=
  match v with
  | .obj kvs => .ok ((List.lookup key kvs).getD default)
  | _ => .error .attributeError

/-- A value an SQLite column can actually hold (Python's `sqlite3` only
binds `None`, numbers and strings; we do not need blobs). -/
inductive SqlValue where
  | null : SqlValue
  | num : Rat → SqlValue
  | text : String → SqlValue
deriving DecidableEq

/-- Binding a Python value as an SQLite parameter: `None`, bools, numbers
and strings bind (`True`/`False` as `1`/`0`); a list or dict raises
`sqlite3.InterfaceError`. -/
def toSqlValue : Json → Except PyErr SqlValue
  | .null => .ok .null
  | .bool b => .ok (.num (if b then 1 else 0))
  | .num q => .ok (.num q)
  | .str s => .ok (.text s)
  | .arr _ => .error .interfaceError
  | .obj _ => .error .interfaceError

/-- Python truthiness of a fetched SQLite column value (for
`result['doc_type'] or 'Unknown'`). -/
def sqlTruthy : SqlValue → Bool
  | .null => false
  | .num q => decide (q ≠ 0)
  | .text s => decide (s ≠ "")

/-- The Python value a fetched SQLite column denotes, as a JSON value. -/
def sqlToJson : SqlValue → Json
  | .null => Json.null
  | .num q => Json.num q
  | .text s => Json.str s

/-- A row of the `documents` table: `id` primary key, `filename`,
`content` (the extracted text). -/
structure DocumentRow where
  id : Nat
  filename : String
  content : String
deriving DecidableEq

/-- A row of the `analysis_results` table: `doc_id` references
`documents.id`; `missing_fields` and `recommendations` hold the
`json.dumps` serializations. -/
structure AnalysisRow where
  id : Nat
  doc_id : Nat
  doc_type : SqlValue
  confidence : SqlValue
  missing_fields : String
  recommendations : String
deriving DecidableEq

/-- The SQLite database: the two tables plus the next ROWIDs the inserts
will be assigned (`cursor.lastrowid`). -/
structure DB where
  documents : List DocumentRow
  analysis_results : List AnalysisRow
  nextDocId : Nat
  nextAnalysisId : Nat
deriving DecidableEq

/-- The external collaborators of one request, abstracted:
`secure_filename` (werkzeug), the PyMuPDF extractor as used by
`extract_text_from_pdf` (`none` models any raised exception, which that
wrapper converts to `None`), and the Gemini call composed with
`json.loads` (`modelResponse prompt` is `.error ()` when either the
network call or the JSON parse raises, `.ok v` when the response text
parses to the JSON value `v`).  One invocation performs exactly one
query; there is no retry anywhere in the source. -/
structure Oracle where
  secureFilename : String → String
  fitzText : String → Option String
  modelResponse : String → Except Unit Json

/-- An upload request: whether the multipart field `file` is present, and
the client-supplied filename. -/
structure UploadRequest where
  hasFilePart : Bool
  filename : String

/-- `ALLOWED_EXTENSIONS = {'pdf'}`. -/
def ALLOWED_EXTENSIONS : List String := ["pdf"]

/-- Python `str.lower()`, written over the character list (the inputs the
source lowers are ASCII, where `Char.toLower` agrees with Python). -/
def pyLower (s : String) : String :=
  String.mk (s.toList.map Char.toLower)

/-- `filename.rsplit('.', 1)[1]`: the substring after the last dot
(meaningful only when a dot is present, exactly as in the source, where
the short-circuiting `and` guards it). -/
def afterLastDot (s : String) : String :=
  String.mk ((s.toList.reverse.takeWhile (fun c => c ≠ '.')).reverse)

/-- `allowed_file`: `'.' in filename and
filename.rsplit('.', 1)[1].lower() in ALLOWED_EXTENSIONS`. -/
def allowed_file (filename : String) : Bool :=
  filename.toList.contains '.' &&
    ALLOWED_EXTENSIONS.contains (pyLower (afterLastDot filename))

/-- `extract_text_from_pdf`: opens the file and concatenates the page
texts, returning `None` on any exception — all of which lives in the
external library, so the wrapper is the oracle's answer itself. -/
def extract_text_from_pdf (o : Oracle) (filepath : String) : Option String :=
  o.fitzText filepath

/-- `REQUIRED_FIELDS`. -/
def REQUIRED_FIELDS : List (String × List String) :=
  [("Contract",
    ["party_names", "effective_date", "contract_term", "payment_terms",
     "scope_of_work", "termination_clause", "governing_law", "signatures",
     "confidentiality", "liability"]),
   ("Invoice",
    ["invoice_number", "amount", "due_date", "tax", "bill_to", "bill_from",
     "payment_terms", "itemized_list", "subtotal", "total"])]

/-- `FIELD_DESCRIPTIONS`. -/
def FIELD_DESCRIPTIONS : List (String × List (String × String)) :=
  [("Contract",
    [("party_names", "Names of all parties involved in the contract"),
     ("effective_date", "Start date of the contract"),
     ("contract_term", "Duration or term of the contract"),
     ("payment_terms", "Terms and conditions of payment"),
     ("scope_of_work", "Detailed description of services or deliverables"),
     ("termination_clause", "Conditions for contract termination"),
     ("governing_law", "Jurisdiction and applicable laws"),
     ("signatures", "Signatures of all parties"),
     ("confidentiality", "Confidentiality and non-disclosure terms"),
     ("liability", "Liability and indemnification clauses")]),
   ("Invoice",
    [("invoice_number", "Unique identifier for the invoice"),
     ("amount", "Total amount to be paid"),
     ("due_date", "Payment deadline"),
     ("tax", "Tax amounts and rates"),
     ("bill_to", "Client billing information"),
     ("bill_from", "Company/sender information"),
     ("payment_terms", "Payment conditions and terms"),
     ("itemized_list", "Detailed list of products/services"),
     ("subtotal", "Sum before taxes and adjustments"),
     ("total", "Final amount including all charges")])]

/-- One line `  "key": "value"` of `json.dumps(d, indent=2)` output, for a
string-to-string dict (the field-description dicts contain no characters
needing JSON escapes). -/
def dumpsStrDictEntries : List (String × String) → String
  | [] => ""
  | [(k, v)] => "  \"" ++ k ++ "\": \"" ++ v ++ "\""
  | (k, v) :: kvs => "  \"" ++ k ++ "\": \"" ++ v ++ "\",\n" ++ dumpsStrDictEntries kvs

/-- `json.dumps(field_desc, indent=2)` for a (nonempty) string-to-string
dict. -/
def dumpsStrDict (kvs : List (String × String)) : String :=
  "\x7b\n" ++ dumpsStrDictEntries kvs ++ "\n\x7d"

/-- The f-string prompt built by `classify_document` (the document text is
truncated to its first 8000 characters). -/
def classifyPrompt (text : String) : String :=
  "\n        Analyze the following document text and classify its type.\n        The possible types are \"Contract\", \"Invoice\", \"Report\", or \"Other\".\n        Return your response as a JSON object with two keys: \"document_type\" (string) and \"confidence_score\" (float between 0.0 and 1.0).\n\n        Document Text:\n        ---\n        "
    ++ text.take 8000 ++
  "\n        ---\n        "

/-- The f-string prompt built by `analyze_missing_fields` for a document
type `dt` that is a key of `REQUIRED_FIELDS` (the document text is
truncated to its first 8000 characters; `field_desc` is interpolated via
`json.dumps(field_desc, indent=2)`). -/
def analyzePrompt (text dt : String) : String :=
  "\n        You are an expert document analyst specializing in " ++ pyLower dt ++
  " analysis. \n        Analyze the following document text thoroughly and provide a detailed assessment.\n\n        Required fields for a " ++ dt ++
  ":\n        " ++ dumpsStrDict ((List.lookup dt FIELD_DESCRIPTIONS).getD []) ++
  "\n\n        Analyze the document for these aspects:\n        1. Present/Missing Fields\n        2. Quality and Completeness\n        3. Legal Compliance\n        4. Potential Risks\n        5. Best Practices\n\n        Return your response as a JSON object with these keys:\n        1. \"missing_fields\": List of missing required fields\n        2. \"incomplete_fields\": List of fields that are present but need improvement\n        3. \"recommendations\": List of specific, actionable recommendations for each issue\n        4. \"risk_factors\": List of potential risks or concerns identified\n        5. \"compliance_notes\": List of compliance-related observations\n        6. \"completeness_score\": Number between 0-100 indicating overall document quality\n        7. \"critical_issues\": List of high-priority issues that need immediate attention\n\n        Document Text:\n        ---\n        "
    ++ text.take 8000 ++
  "\n        ---\n\n        Provide detailed, professional analysis focusing on both technical completeness and practical business implications.\n        "

/-- `classify_document`: one model call inside `try`; the parsed JSON is
returned as-is, and any exception (network error, malformed JSON) yields
the sentinel `{"document_type": "Error", "confidence_score": 0.0}`. -/
def classify_document (o : Oracle) (text : String) : Json :=
  match o.modelResponse (classifyPrompt text) with
  | .ok result => result
  | .error _ => Json.obj [("document_type", Json.str "Error"),
                          ("confidence_score", Json.num 0)]

/-- The seven keys `analyze_missing_fields` guarantees after a successful
parse (`required_keys` in the source). -/
def required_keys : List String :=
  ["missing_fields", "incomplete_fields", "recommendations",
   "risk_factors", "compliance_notes", "completeness_score",
   "critical_issues"]

/-- The default filled in for an absent key:
`[] if key != "completeness_score" else 0`. -/
def normalizeDefault (key : String) : Json :=
  if key = "completeness_score" then Json.num 0 else Json.arr []

/-- One iteration of the normalization loop:
`if key not in result: result[key] = ...` (insertion appends the new key,
as in a Python dict). -/
def fillStep (acc : List (String × Json)) (key : String) : List (String × Json) :=
  if (List.lookup key acc).isSome then acc else acc ++ [(key, normalizeDefault key)]

/-- The normalization loop `for key in required_keys: ...` applied to a
parsed JSON object. -/
def fillRequiredKeys (result : List (String × Json)) : List (String × Json) :=
  required_keys.foldl fillStep result

/-- The report returned for a document type outside `REQUIRED_FIELDS`. -/
def trivialReport : Json :=
  Json.obj [("missing_fields", Json.arr []),
            ("recommendations",
             Json.arr [Json.str "Document type does not have a defined set of required fields."])]

/-- The degraded report returned from the `except` branch of
`analyze_missing_fields`. -/
def degradedReport : Json :=
  Json.obj [("missing_fields", Json.arr [Json.str "Analysis Error"]),
            ("recommendations",
             Json.arr [Json.str "Could not perform analysis due to an API error."])]

/-- Python `key in xs` for a string key against a parsed JSON list: the
key equals an element exactly when that element is the same string
(equality with a non-string JSON value is `False`). -/
def jsonListHasStr (xs : List Json) (k : String) : Bool :=
  match xs with
  | [] => false
  | Json.str s :: rest => k == s || jsonListHasStr rest k
  | _ :: rest => jsonListHasStr rest k

/-- Python `needle in hay` for strings: substring containment. -/
def strContainsSubstr (hay needle : String) : Bool :=
  decide (needle.toList <:+: hay.toList)

/-- The normalization loop
`for key in required_keys: if key not in result: result[key] = ...` run
on an arbitrary `json.loads` result.  On a dict it fills the absent
keys.  On a list (element membership) or a string (substring
membership), the first key failing the membership test makes the item
assignment raise `TypeError`, while a value containing all seven keys
survives the whole sweep and is returned unchanged.  On any other value
the membership test itself raises `TypeError`. -/
def normalizeLoop (result : Json) : Except Unit Json :=
  match result with
  | .obj kvs => .ok (.obj (fillRequiredKeys kvs))
  | .arr xs =>
    if required_keys.all (fun k => jsonListHasStr xs k) then .ok (.arr xs) else .error ()
  | .str s =>
    if required_keys.all (fun k => strContainsSubstr s k) then .ok (.str s) else .error ()
  | _ => .error ()

/-- `analyze_missing_fields`.  The membership test
`doc_type not in REQUIRED_FIELDS` raises `TypeError` on an unhashable
(`list`/`dict`) key — that test sits outside the `try`, so the error
propagates.  Inside the `try`: one model call, `json.loads`, then the
normalization loop (`normalizeLoop`); any exception inside the `try` —
call failure, parse failure, or the loop raising on a non-dict missing
one of the seven keys — lands in the `except` branch, which returns the
degraded report.  A non-dict that passes the whole membership sweep
(all seven keys present as elements/substrings) is returned unchanged,
exactly as in the source. -/
def analyze_missing_fields (o : Oracle) (text : String) (doc_type : Json) : Except PyErr Json :=
  match doc_type with
  | .arr _ => .error .typeError
  | .obj _ => .error .typeError
  | .str dt =>
    if (List.lookup dt REQUIRED_FIELDS).isSome then
      .ok (match o.modelResponse (analyzePrompt text dt) with
        | .ok result =>
          match normalizeLoop result with
          | .ok r => r
          | .error _ => degradedReport
        | .error _ => degradedReport)
    else .ok trivialReport
  | _ => .ok trivialReport

/-- The seven-key `analysis` object both handlers build with
`analysis_result.get(key, default)` for each expected key. -/
def analysisPayload (analysis_result : Json) : Except PyErr Json := do
  let missing_fields ← pyDictGet analysis_result "missing_fields" (Json.arr [])
  let incomplete_fields ← pyDictGet analysis_result "incomplete_fields" (Json.arr [])
  let recommendations ← pyDictGet analysis_result "recommendations" (Json.arr [])
  let risk_factors ← pyDictGet analysis_result "risk_factors" (Json.arr [])
  let compliance_notes ← pyDictGet analysis_result "compliance_notes" (Json.arr [])
  let completeness_score ← pyDictGet analysis_result "completeness_score" (Json.num 0)
  let critical_issues ← pyDictGet analysis_result "critical_issues" (Json.arr [])
  return Json.obj [("missing_fields", missing_fields),
                   ("incomplete_fields", incomplete_fields),
                   ("recommendations", recommendations),
                   ("risk_factors", risk_factors),
                   ("compliance_notes", compliance_notes),
                   ("completeness_score", completeness_score),
                   ("critical_issues", critical_issues)]

/-- `UPLOAD_FOLDER = 'uploads'`. -/
def UPLOAD_FOLDER : String := "uploads"

/-- The upload handler's steps after the Document insert has been
committed: classify, read the two classification values with `.get`,
gap-analyze, read the two stored lists with `.get`, bind and insert the
`analysis_results` row, then build the 201 body (which reads the seven
analysis keys with `.get` again, as the source does).  Any `PyErr`
escapes this region uncaught. -/
def uploadAnalysisSteps (o : Oracle) (db1 : DB) (doc_id : Nat)
    (filename text_content : String) : Except PyErr (DB × Nat × Json) := do
  let classification_result := classify_document o text_content
  let doc_type ← pyDictGet classification_result "document_type" (Json.str "Other")
  let confidence ← pyDictGet classification_result "confidence_score" (Json.num 0)
  let analysis_result ← analyze_missing_fields o text_content doc_type
  let missing_fields ← pyDictGet analysis_result "missing_fields" (Json.arr [])
  let recommendations ← pyDictGet analysis_result "recommendations" (Json.arr [])
  let sqlDocType ← toSqlValue doc_type
  let sqlConfidence ← toSqlValue confidence
  let db2 : DB :=
    { db1 with
      analysis_results := db1.analysis_results ++
        [⟨db1.nextAnalysisId, doc_id, sqlDocType, sqlConfidence,
          missing_fields.dumps, recommendations.dumps⟩],
      nextAnalysisId := db1.nextAnalysisId + 1 }
  let analysisBody ← analysisPayload analysis_result
  return (db2, 201,
    Json.obj [("message", Json.str "File uploaded and analyzed successfully"),
              ("document_id", Json.num doc_id),
              ("filename", Json.str filename),
              ("classification", classification_result),
              ("analysis", analysisBody)])

/-- `POST /upload` (`upload_and_analyze_document`).  Returns the resulting
database together with either the handler's `(status, body)` or the
uncaught Python exception (which Flask turns into a 500; the Document
insert was already committed at that point). -/
def upload_and_analyze_document (o : Oracle) (db : DB) (req : UploadRequest) :
    DB × Except PyErr (Nat × Json) :=
  if req.hasFilePart = false then
    (db, .ok (400, errJson "No file part in the request"))
  else if req.filename = "" then
    (db, .ok (400, errJson "No file selected"))
  else if allowed_file req.filename then
    let filename := o.secureFilename req.filename
    let filepath := UPLOAD_FOLDER ++ "/" ++ filename
    match extract_text_from_pdf o filepath with
    | none => (db, .ok (500, errJson "Could not extract text from PDF"))
    | some text_content =>
      let doc_id := db.nextDocId
      let db1 : DB :=
        { documents := db.documents ++ [⟨doc_id, filename, text_content⟩],
          analysis_results := db.analysis_results,
          nextDocId := doc_id + 1,
          nextAnalysisId := db.nextAnalysisId }
      match uploadAnalysisSteps o db1 doc_id filename text_content with
      | .ok (db2, status, body) => (db2, .ok (status, body))
      | .error e => (db1, .error e)
  else
    (db, .ok (400, errJson "File type not allowed"))

/-- `result['doc_type'] or 'Unknown'` on the LEFT-JOINed row: `NULL` (no
analysis row), an SQL `NULL`, `0` or `''` are falsy and give
`"Unknown"`. -/
def fetchedDocType (row : Option AnalysisRow) : Json :=
  match row with
  | none => Json.str "Unknown"
  | some r => if sqlTruthy r.doc_type then sqlToJson r.doc_type else Json.str "Unknown"

/-- `result['confidence'] or 0.0` on the LEFT-JOINed row. -/
def fetchedConfidence (row : Option AnalysisRow) : Json :=
  match row with
  | none => Json.num 0
  | some r => if sqlTruthy r.confidence then sqlToJson r.confidence else Json.num 0

/-- The entries of the replacement report the fetch handler substitutes
when `analysis_result` is not a dict. -/
def fetchFallbackKvs : List (String × Json) :=
  [("missing_fields", Json.arr []),
   ("incomplete_fields", Json.arr []),
   ("recommendations", Json.arr [Json.str "Analysis failed"]),
   ("risk_factors", Json.arr []),
   ("compliance_notes", Json.arr []),
   ("completeness_score", Json.num 0),
   ("critical_issues", Json.arr [Json.str "Failed to analyze document"])]

/-- The replacement report the fetch handler substitutes when
`analysis_result` is not a dict. -/
def fetchFallbackReport : Json := Json.obj fetchFallbackKvs

/-- `GET /analysis/<doc_id>` (`get_analysis_result`): select the document
with the first matching analysis row LEFT-JOINed, 404 when absent,
otherwise re-run the gap analyzer on the stored content and build the
composite payload; the whole body sits in a `try` whose `except` answers
500. -/
def get_analysis_result (o : Oracle) (db : DB) (doc_id : Nat) : Nat × Json :=
  match db.documents.find? (fun d => d.id == doc_id) with
  | none => (404, errJson "Document not found")
  | some d =>
    let row := db.analysis_results.find? (fun r => r.doc_id == d.id)
    let doc_type := fetchedDocType row
    match analyze_missing_fields o d.content doc_type with
    | .error e => (500, errJson ("Failed to retrieve analysis: " ++ pyErrMessage e))
    | .ok ar0 =>
      let analysis_result := if ar0.isObj then ar0 else fetchFallbackReport
      match analysisPayload analysis_result with
      | .error e => (500, errJson ("Failed to retrieve analysis: " ++ pyErrMessage e))
      | .ok analysisBody =>
          (200, Json.obj [("document_id", Json.num d.id),
                          ("filename", Json.str d.filename),
                          ("classification",
                           Json.obj [("document_type", doc_type),
                                     ("confidence_score", fetchedConfidence row)]),
                          ("analysis", analysisBody)])

/-- The seven-entry association list `analysisPayload` produces from a
dict, written out. -/
def analysisViewKvs (a : List (String × Json)) : List (String × Json) :=
  [("missing_fields", (List.lookup "missing_fields" a).getD (Json.arr [])),
   ("incomplete_fields", (List.lookup "incomplete_fields" a).getD (Json.arr [])),
   ("recommendations", (List.lookup "recommendations" a).getD (Json.arr [])),
   ("risk_factors", (List.lookup "risk_factors" a).getD (Json.arr [])),
   ("compliance_notes", (List.lookup "compliance_notes" a).getD (Json.arr [])),
   ("completeness_score", (List.lookup "completeness_score" a).getD (Json.num 0)),
   ("critical_issues", (List.lookup "critical_issues" a).getD (Json.arr []))]

/-- A classifier result the upload handler can finish on: a dict whose
`document_type` and `confidence_score` entries (when present) are
hashable/bindable primitives.  The classifier sentinel and every
well-formed model answer satisfy this; a parsed non-dict, or a dict
carrying a list/dict in one of those two entries, does not. -/
def goodClassification (j : Json) : Bool :=
  match j with
  | .obj kvs =>
      ((List.lookup "document_type" kvs).getD (Json.str "Other")).isPrimitive &&
      ((List.lookup "confidence_score" kvs).getD (Json.num 0)).isPrimitive
  | _ => false

/-- The document type the upload handler reads from a dict classifier
outcome (`classification_result.get("document_type", "Other")`).  The
non-dict arm never matters: there the handler raises before this read;
it is only a total default for stating hypotheses. -/
def classifiedDocType (o : Oracle) (t : String) : Json :=
  match classify_document o t with
  | .obj kvs => (List.lookup "document_type" kvs).getD (Json.str "Other")
  | _ => Json.str "Other"

/-- Whether a gap-analyzer outcome is a dict — the only shape the upload
handler's `.get` reads can consume without raising. -/
def exceptIsObj : Except PyErr Json → Bool
  | .ok r => r.isObj
  | .error _ => false

/-- An oracle whose model service always raises (network failure). -/
def oracleFail : Oracle :=
  ⟨fun s => s, fun _ => some "Invoice #123, total due $50", fun _ => Except.error ()⟩

/-- An oracle whose model service returns valid JSON that is a list, not
an object. -/
def oracleNonObj : Oracle :=
  ⟨fun s => s, fun _ => some "some text", fun _ => Except.ok (Json.arr [])⟩

/-- An oracle whose PDF extraction raises. -/
def oracleNoText : Oracle :=
  ⟨fun s => s, fun _ => none, fun _ => Except.error ()⟩

/-- An oracle whose model service answers the gap analyzer with a partial
JSON object. -/
def oraclePartial : Oracle :=
  ⟨fun s => s, fun _ => some "Invoice #123, total due $50",
   fun _ => Except.ok (Json.obj [("missing_fields", Json.arr [Json.str "due_date"])])⟩

/-- The JSON list holding exactly the seven expected key strings: a
non-dict that survives the normalization sweep untouched. -/
def survivorList : Json := Json.arr (required_keys.map Json.str)

/-- An oracle whose model service always answers with `survivorList`
(valid JSON, not an object, passing every membership test). -/
def oracleSurvivor : Oracle :=
  ⟨fun s => s, fun _ => some "Invoice #123, total due $50",
   fun _ => Except.ok survivorList⟩

/-- A freshly initialized database. -/
def dbEmpty : DB := ⟨[], [], 1, 1⟩

/-- A database holding one stored document together with its stored
analysis row (doc_type "Invoice"). -/
def dbOneDocTyped : DB :=
  ⟨[⟨1, "doc.pdf", "Invoice #123, total due $50"⟩],
   [⟨1, 1, SqlValue.text "Invoice", SqlValue.num 1, "[]", "[]"⟩], 2, 2⟩

/-- A well-formed PDF upload request. -/
def reqPdf : UploadRequest := ⟨true, "doc.pdf"⟩

/-- An upload request carrying a non-PDF filename. -/
def reqTxt : UploadRequest := ⟨true, "doc.txt"⟩

example : pyDictGet (Json.obj [("a", Json.num 1)]) "a" Json.null = .ok (Json.num 1) := rfl
example : pyDictGet (Json.obj [("a", Json.num 1)]) "b" Json.null = .ok Json.null := rfl
example : pyDictGet (Json.arr []) "a" Json.null = .error .attributeError := rfl
example : allowed_file "a.pdf" = true := rfl
example : allowed_file "doc.PDF" = true := rfl
example : allowed_file "pdf" = false := rfl
example : allowed_file "archive.pdf.exe" = false := rfl

theorem analysisPayload_obj (a : List (String × Json)) :
    analysisPayload (Json.obj a) = .ok (Json.obj (analysisViewKvs a)) := rfl

theorem analysisViewKvs_keys (a : List (String × Json)) :
    ∀ k, k ∈ required_keys → (List.lookup k (analysisViewKvs a)).isSome = true := by
  intro k hk
  simp only [required_keys, List.mem_cons, List.not_mem_nil, or_false] at hk
  rcases hk with rfl | rfl | rfl | rfl | rfl | rfl | rfl <;> rfl

theorem analyze_req_error (o : Oracle) (t dt : String)
    (hdt : (List.lookup dt REQUIRED_FIELDS).isSome = true)
    (h : o.modelResponse (analyzePrompt t dt) = .error ()) :
    analyze_missing_fields o t (Json.str dt) = .ok degradedReport := by
  simp [analyze_missing_fields, hdt, h]

theorem analyze_req_obj (o : Oracle) (t dt : String) (kvs : List (String × Json))
    (hdt : (List.lookup dt REQUIRED_FIELDS).isSome = true)
    (h : o.modelResponse (analyzePrompt t dt) = .ok (Json.obj kvs)) :
    analyze_missing_fields o t (Json.str dt) = .ok (Json.obj (fillRequiredKeys kvs)) := by
  simp [analyze_missing_fields, normalizeLoop, hdt, h]

theorem analyze_nonkey (o : Oracle) (t dt : String)
    (hdt : List.lookup dt REQUIRED_FIELDS = none) :
    analyze_missing_fields o t (Json.str dt) = .ok trivialReport := by
  simp [analyze_missing_fields, hdt]

theorem analyze_primitive_ok (o : Oracle) (t : String) (v : Json)
    (h : v.isPrimitive = true) :
    ∃ r, analyze_missing_fields o t v = .ok r := by
  cases v with
  | arr xs => simp [Json.isPrimitive] at h
  | obj kvs => simp [Json.isPrimitive] at h
  | str dt =>
    by_cases hdt : (List.lookup dt REQUIRED_FIELDS).isSome = true
    · refine ⟨(match o.modelResponse (analyzePrompt t dt) with
        | .ok result =>
          match normalizeLoop result with
          | .ok r => r
          | .error _ => degradedReport
        | .error _ => degradedReport), ?_⟩
      simp [analyze_missing_fields, hdt]
    · have hnone : List.lookup dt REQUIRED_FIELDS = none := by
        cases hl : List.lookup dt REQUIRED_FIELDS with
        | none => rfl
        | some x => exact absurd (by simp [hl]) hdt
      exact ⟨_, analyze_nonkey o t dt hnone⟩
  | null => exact ⟨_, rfl⟩
  | bool b => exact ⟨_, rfl⟩
  | num q => exact ⟨_, rfl⟩

example :
    analyze_missing_fields oracleSurvivor "t" (Json.str "Invoice") = .ok survivorList := rfl
example : normalizeLoop (Json.arr [Json.str "missing_fields"]) = .error () := rfl
example : normalizeLoop (Json.str "x") = .error () := rfl
example : normalizeLoop Json.null = .error () := rfl
example : strContainsSubstr "has missing_fields inside" "missing_fields" = true := rfl

/-- C3: on any failure of the model call or the JSON parse inside the
classifier, `classify_document` returns exactly the sentinel
`{"document_type": "Error", "confidence_score": 0.0}`.  The embedding
issues exactly one oracle query per invocation (no retry). -/
theorem classify_document_error_sentinel (o : Oracle) (text : String)
    (h : o.modelResponse (classifyPrompt text) = .error ()) :
    classify_document o text =
      Json.obj [("document_type", Json.str "Error"), ("confidence_score", Json.num 0)] := by
  simp [classify_document, h]

/-- C3 witness: a concrete always-failing oracle yields the sentinel. -/
theorem classify_document_error_sentinel_witness :
    classify_document oracleFail "hello" =
      Json.obj [("document_type", Json.str "Error"), ("confidence_score", Json.num 0)] :=
  classify_document_error_sentinel oracleFail "hello" rfl

/-- C4: for every text and docType in the closed set, a failing model
call makes `analyze_missing_fields` return the degraded report —
`missing_fields = ["Analysis Error"]`, `recommendations =
["Could not perform analysis due to an API error."]` and nothing else —
so every other field of the report reads as empty (or 0 for the score)
through the handlers' defaulted accessors.  One oracle query, no retry. -/
theorem analyze_missing_fields_degraded (o : Oracle) (text dt : String)
    (h1 : dt = "Contract" ∨ dt = "Invoice")
    (h2 : o.modelResponse (analyzePrompt text dt) = .error ()) :
    analyze_missing_fields o text (Json.str dt) = .ok degradedReport ∧
    degradedReport =
      Json.obj [("missing_fields", Json.arr [Json.str "Analysis Error"]),
                ("recommendations",
                 Json.arr [Json.str "Could not perform analysis due to an API error."])] ∧
    analysisPayload degradedReport =
      .ok (Json.obj [("missing_fields", Json.arr [Json.str "Analysis Error"]),
                     ("incomplete_fields", Json.arr []),
                     ("recommendations",
                      Json.arr [Json.str "Could not perform analysis due to an API error."]),
                     ("risk_factors", Json.arr []),
                     ("compliance_notes", Json.arr []),
                     ("completeness_score", Json.num 0),
                     ("critical_issues", Json.arr [])]) := by
  refine ⟨?_, rfl, rfl⟩
  rcases h1 with rfl | rfl
  · exact analyze_req_error o text "Contract" rfl h2
  · exact analyze_req_error o text "Invoice" rfl h2

/-- C4 witness: the degraded report at a concrete failing oracle, for
docType "Contract". -/
theorem analyze_missing_fields_degraded_witness :
    analyze_missing_fields oracleFail "Invoice #123, total due $50" (Json.str "Contract") =
      .ok degradedReport ∧
    degradedReport =
      Json.obj [("missing_fields", Json.arr [Json.str "Analysis Error"]),
                ("recommendations",
                 Json.arr [Json.str "Could not perform analysis due to an API error."])] ∧
    analysisPayload degradedReport =
      .ok (Json.obj [("missing_fields", Json.arr [Json.str "Analysis Error"]),
                     ("incomplete_fields", Json.arr []),
                     ("recommendations",
                      Json.arr [Json.str "Could not perform analysis due to an API error."]),
                     ("risk_factors", Json.arr []),
                     ("compliance_notes", Json.arr []),
                     ("completeness_score", Json.num 0),
                     ("critical_issues", Json.arr [])]) :=
  analyze_missing_fields_degraded oracleFail "Invoice #123, total due $50" "Contract"
    (Or.inl rfl) rfl

/-- C5: for every docType string outside {"Contract", "Invoice"},
`analyze_missing_fields` returns the trivial report — empty
`missing_fields` and the single no-defined-schema recommendation, with no
other key — so every extended field reads as empty (or 0 for the score)
through the handlers' defaulted accessors; the model is not needed (the
result holds for every oracle). -/
theorem analyze_missing_fields_trivial (o : Oracle) (text dt : String)
    (h : ¬(dt = "Contract" ∨ dt = "Invoice")) :
    analyze_missing_fields o text (Json.str dt) = .ok trivialReport ∧
    trivialReport =
      Json.obj [("missing_fields", Json.arr []),
                ("recommendations",
                 Json.arr [Json.str "Document type does not have a defined set of required fields."])] ∧
    analysisPayload trivialReport =
      .ok (Json.obj [("missing_fields", Json.arr []),
                     ("incomplete_fields", Json.arr []),
                     ("recommendations",
                      Json.arr [Json.str "Document type does not have a defined set of required fields."]),
                     ("risk_factors", Json.arr []),
                     ("compliance_notes", Json.arr []),
                     ("completeness_score", Json.num 0),
                     ("critical_issues", Json.arr [])]) := by
  push_neg at h
  obtain ⟨hC, hI⟩ := h
  refine ⟨?_, rfl, rfl⟩
  refine analyze_nonkey o text dt ?_
  have hC' : (dt == "Contract") = false := beq_eq_false_iff_ne.mpr hC
  have hI' : (dt == "Invoice") = false := beq_eq_false_iff_ne.mpr hI
  simp [REQUIRED_FIELDS, List.lookup, hC', hI']

/-- C5 witness: the trivial report at docType "Report" (a label the
classifier can return), for a concrete oracle. -/
theorem analyze_missing_fields_trivial_witness :
    analyze_missing_fields oracleFail "Invoice #123, total due $50" (Json.str "Report") =
      .ok trivialReport ∧
    trivialReport =
      Json.obj [("missing_fields", Json.arr []),
                ("recommendations",
                 Json.arr [Json.str "Document type does not have a defined set of required fields."])] ∧
    analysisPayload trivialReport =
      .ok (Json.obj [("missing_fields", Json.arr []),
                     ("incomplete_fields", Json.arr []),
                     ("recommendations",
                      Json.arr [Json.str "Document type does not have a defined set of required fields."]),
                     ("risk_factors", Json.arr []),
                     ("compliance_notes", Json.arr []),
                     ("completeness_score", Json.num 0),
                     ("critical_issues", Json.arr [])]) :=
  analyze_missing_fields_trivial oracleFail "Invoice #123, total due $50" "Report"
    (by decide)

/-- C7: two texts agreeing on their first 8000 characters produce
character-for-character identical classifier and gap-analyzer prompts
(for any fixed docType), and hence identical classifier and analyzer
results against any oracle — characters at or beyond offset 8000 never
influence either request. -/
theorem prompts_depend_only_on_first_8000 (t1 t2 : String)
    (h : t1.take 8000 = t2.take 8000) :
    classifyPrompt t1 = classifyPrompt t2 ∧
    (∀ dt, analyzePrompt t1 dt = analyzePrompt t2 dt) ∧
    (∀ o, classify_document o t1 = classify_document o t2) ∧
    (∀ o dt, analyze_missing_fields o t1 dt = analyze_missing_fields o t2 dt) := by
  have hc : classifyPrompt t1 = classifyPrompt t2 := by
    unfold classifyPrompt; rw [h]
  have ha : ∀ dt, analyzePrompt t1 dt = analyzePrompt t2 dt := by
    intro dt; unfold analyzePrompt; rw [h]
  refine ⟨hc, ha, ?_, ?_⟩
  · intro o; unfold classify_document; rw [hc]
  · intro o dt
    cases dt <;> simp [analyze_missing_fields, ha]

/-- C7 witness: at concrete texts with equal 8000-character prefixes. -/
theorem prompts_depend_only_on_first_8000_witness :
    classifyPrompt "sample" = classifyPrompt "sample" ∧
    (∀ dt, analyzePrompt "sample" dt = analyzePrompt "sample" dt) ∧
    (∀ o, classify_document o "sample" = classify_document o "sample") ∧
    (∀ o dt, analyze_missing_fields o "sample" dt = analyze_missing_fields o "sample" dt) :=
  prompts_depend_only_on_first_8000 "sample" "sample" rfl

/-- C8: an upload whose file has a non-empty filename that fails the
extension check returns 400 with the unsupported-type error and leaves
the database exactly as it was: no Document row, no AnalysisResult row. -/
theorem upload_rejects_non_pdf (o : Oracle) (db : DB) (req : UploadRequest)
    (h1 : req.hasFilePart = true) (h2 : req.filename ≠ "")
    (h3 : allowed_file req.filename = false) :
    upload_and_analyze_document o db req = (db, .ok (400, errJson "File type not allowed")) := by
  simp [upload_and_analyze_document, h1, h2, h3]

/-- C8 witness: uploading `doc.txt` is rejected without touching the
empty database. -/
theorem upload_rejects_non_pdf_witness :
    upload_and_analyze_document oracleFail dbEmpty reqTxt =
      (dbEmpty, .ok (400, errJson "File type not allowed")) :=
  upload_rejects_non_pdf oracleFail dbEmpty reqTxt rfl (by decide) rfl

/-- C9: an upload of a PDF whose text extraction fails (the extractor
returns its failure signal) answers 500 with the extraction-failed error
and leaves the database exactly as it was: no Document row, no
AnalysisResult row. -/
theorem upload_extraction_failure (o : Oracle) (db : DB) (req : UploadRequest)
    (h1 : req.hasFilePart = true) (h2 : req.filename ≠ "")
    (h3 : allowed_file req.filename = true)
    (h4 : o.fitzText (UPLOAD_FOLDER ++ "/" ++ o.secureFilename req.filename) = none) :
    upload_and_analyze_document o db req =
      (db, .ok (500, errJson "Could not extract text from PDF")) := by
  simp [upload_and_analyze_document, extract_text_from_pdf, h1, h2, h3, h4]

/-- C9 witness: a concrete oracle whose extractor fails. -/
theorem upload_extraction_failure_witness :
    upload_and_analyze_document oracleNoText dbEmpty reqPdf =
      (dbEmpty, .ok (500, errJson "Could not extract text from PDF")) :=
  upload_extraction_failure oracleNoText dbEmpty reqPdf rfl (by decide) rfl rfl

theorem string_mk_toList (s : String) : String.mk s.toList = s := by
  cases s; rfl

theorem takeWhile_all_append (p : Char → Bool) (l1 l2 : List Char) (a : Char)
    (h1 : ∀ x ∈ l1, p x = true) (h2 : p a = false) :
    (l1 ++ a :: l2).takeWhile p = l1 := by
  induction l1 with
  | nil => simp [List.takeWhile, h2]
  | cons x xs ih =>
    have hx : p x = true := h1 x (by simp)
    have ih' := ih (fun y hy => h1 y (by simp [hy]))
    simp [List.takeWhile, hx, ih']

theorem afterLastDot_append (xs ys : List Char) (hy : ys.contains '.' = false) :
    afterLastDot (String.mk (xs ++ '.' :: ys)) = String.mk ys := by
  have hy' : ∀ x ∈ ys.reverse, (fun c => decide (c ≠ '.')) x = true := by
    intro x hx
    have hxy : x ∈ ys := by simpa using hx
    have : x ≠ '.' := by
      intro hcon
      subst hcon
      simp at hy
      exact hy hxy
    simpa using this
  unfold afterLastDot
  have h1 : (String.mk (xs ++ '.' :: ys)).toList = xs ++ '.' :: ys := rfl
  rw [h1, List.reverse_append, List.reverse_cons]
  have h2 : ys.reverse ++ ('.' :: xs.reverse) =
      ys.reverse ++ '.' :: xs.reverse := rfl
  rw [List.append_assoc]
  simp only [List.singleton_append]
  rw [takeWhile_all_append _ _ _ _ hy' (by simp)]
  simp

theorem dot_split (l : List Char) (h : l.contains '.' = true) :
    ∃ xs ys, l = xs ++ '.' :: ys ∧ ys.contains '.' = false := by
  induction l with
  | nil => simp at h
  | cons a t ih =>
    by_cases ht : t.contains '.' = true
    · obtain ⟨xs, ys, rfl, hy⟩ := ih ht
      exact ⟨a :: xs, ys, rfl, hy⟩
    · have ht' : t.contains '.' = false := by
        cases hc : t.contains '.'
        · rfl
        · exact absurd hc ht
      have ha : a = '.' := by
        simp [ht'] at h
        simp at ht'
        rcases h with h | h
        · exact h.symm
        · exact absurd h ht'
      exact ⟨[], t, by simp [ha], ht'⟩

/-- C10: `allowed_file` accepts exactly the filenames containing a dot
whose substring after the last dot equals "pdf" case-insensitively; in
particular "doc.PDF" is accepted while "pdf" (no dot) and
"archive.pdf.exe" are rejected. -/
theorem allowed_file_spec :
    (∀ f : String, allowed_file f = true ↔
        ∃ stem ext : String, f = stem ++ "." ++ ext ∧
          ext.toList.contains '.' = false ∧ pyLower ext = "pdf") ∧
    allowed_file "doc.PDF" = true ∧
    allowed_file "pdf" = false ∧
    allowed_file "archive.pdf.exe" = false := by
  refine ⟨?_, rfl, rfl, rfl⟩
  intro f
  constructor
  · intro h
    unfold allowed_file at h
    rw [Bool.and_eq_true] at h
    obtain ⟨hdot, hext⟩ := h
    obtain ⟨xs, ys, hf, hy⟩ := dot_split f.toList hdot
    have hff : f = String.mk xs ++ "." ++ String.mk ys := by
      apply String.ext
      rw [String.data_append, String.data_append]
      show f.toList = (xs ++ ['.']) ++ ys
      rw [hf]
      simp
    have hafter : afterLastDot f = String.mk ys := by
      conv_lhs => rw [← string_mk_toList f, hf]
      exact afterLastDot_append xs ys hy
    rw [hafter] at hext
    have hlow : pyLower (String.mk ys) = "pdf" := by
      simpa [ALLOWED_EXTENSIONS] using hext
    exact ⟨String.mk xs, String.mk ys, hff, hy, hlow⟩
  · rintro ⟨stem, ext, rfl, hne, hl⟩
    have htl : (stem ++ "." ++ ext).toList = stem.toList ++ '.' :: ext.toList := by
      cases stem; cases ext; simp [String.toList]
    unfold allowed_file
    rw [Bool.and_eq_true]
    constructor
    · rw [htl]; simp
    · have hmk : stem ++ "." ++ ext = String.mk (stem.toList ++ '.' :: ext.toList) := by
        rw [← htl, string_mk_toList]
      have hafter : afterLastDot (stem ++ "." ++ ext) = ext := by
        rw [hmk, afterLastDot_append _ _ hne, string_mk_toList]
      rw [hafter, hl]
      rfl

/-- C10 witness: a direct consequence of the characterization at a
concrete decomposed filename. -/
theorem allowed_file_spec_witness : allowed_file "x.pdf" = true :=
  (allowed_file_spec.1 "x.pdf").mpr ⟨"x", "pdf", rfl, rfl, rfl⟩

theorem lookup_append_some (k : String) (v : Json) (l1 l2 : List (String × Json))
    (h : List.lookup k l1 = some v) : List.lookup k (l1 ++ l2) = some v := by
  induction l1 with
  | nil => simp [List.lookup] at h
  | cons p t ih =>
    obtain ⟨a, b⟩ := p
    rw [List.cons_append]
    cases hk : (k == a) <;> simp only [List.lookup, hk] at h ⊢
    · exact ih h
    · exact h

theorem lookup_append_none (k : String) (l1 l2 : List (String × Json))
    (h : List.lookup k l1 = none) : List.lookup k (l1 ++ l2) = List.lookup k l2 := by
  induction l1 with
  | nil => rfl
  | cons p t ih =>
    obtain ⟨a, b⟩ := p
    rw [List.cons_append]
    cases hk : (k == a) <;> simp only [List.lookup, hk] at h ⊢
    · exact ih h
    · cases h

theorem fill_lookup (ks : List String) (acc : List (String × Json)) (k : String) :
    List.lookup k (ks.foldl fillStep acc) =
      if ks.contains k && (List.lookup k acc).isNone then some (normalizeDefault k)
      else List.lookup k acc := by
  induction ks generalizing acc with
  | nil => simp
  | cons key tl ih =>
    rw [List.foldl_cons, ih (fillStep acc key)]
    by_cases hacc : (List.lookup key acc).isSome = true
    · have hstep : fillStep acc key = acc := by rw [fillStep, if_pos hacc]
      rw [hstep]
      by_cases hk : k = key
      · subst hk
        obtain ⟨v, hv⟩ := Option.isSome_iff_exists.mp hacc
        simp [hv]
      · have hcons : List.elem k (key :: tl) = List.elem k tl := by
          simp only [List.elem, beq_eq_false_iff_ne.mpr hk]
        rw [show (key :: tl).contains k = List.elem k (key :: tl) from rfl, hcons]
    · have hstep : fillStep acc key = acc ++ [(key, normalizeDefault key)] := by
        rw [fillStep, if_neg hacc]
      have haccnone : List.lookup key acc = none := by
        cases hc : List.lookup key acc
        · rfl
        · exact absurd (by simp [hc]) hacc
      rw [hstep]
      by_cases hk : k = key
      · subst hk
        have hsingle : List.lookup k [(k, normalizeDefault k)] = some (normalizeDefault k) := by
          simp [List.lookup]
        rw [lookup_append_none k acc _ haccnone, hsingle]
        simp [haccnone, List.contains]
      · have hsingle : List.lookup k [(key, normalizeDefault key)] = none := by
          simp [List.lookup, beq_eq_false_iff_ne.mpr hk]
        cases hc : List.lookup k acc with
        | some v =>
          rw [lookup_append_some k v acc _ hc]
          simp [hc, hk]
        | none =>
          rw [lookup_append_none k acc _ hc, hsingle]
          simp [hc, hk]

/-- C6: when the gap analyzer's model response parses to a JSON object,
the returned report is that object with normalization applied — each of
the seven expected keys that is absent is appended with the default
(empty list, or 0 for completeness_score), keys already present are
passed through unchanged, and keys outside the seven are untouched. -/
theorem analyze_missing_fields_normalization (o : Oracle) (text dt : String)
    (kvs : List (String × Json))
    (hdt : (List.lookup dt REQUIRED_FIELDS).isSome = true)
    (hresp : o.modelResponse (analyzePrompt text dt) = .ok (Json.obj kvs)) :
    analyze_missing_fields o text (Json.str dt) = .ok (Json.obj (fillRequiredKeys kvs)) ∧
    (∀ k v, List.lookup k kvs = some v → List.lookup k (fillRequiredKeys kvs) = some v) ∧
    (∀ k, k ∈ required_keys → List.lookup k kvs = none →
        List.lookup k (fillRequiredKeys kvs) =
          some (if k = "completeness_score" then Json.num 0 else Json.arr [])) ∧
    (∀ k, k ∉ required_keys → List.lookup k (fillRequiredKeys kvs) = List.lookup k kvs) := by
  refine ⟨analyze_req_obj o text dt kvs hdt hresp, ?_, ?_, ?_⟩
  · intro k v hv
    rw [fillRequiredKeys, fill_lookup]
    simp [hv]
  · intro k hk hnone
    rw [fillRequiredKeys, fill_lookup]
    simp [hk, hnone, normalizeDefault]
  · intro k hk
    rw [fillRequiredKeys, fill_lookup]
    simp [hk]

/-- C6 witness: a concrete partial model answer for docType "Invoice"
gets its six absent keys filled and its present key passed through. -/
theorem analyze_missing_fields_normalization_witness :
    analyze_missing_fields oraclePartial "Invoice #123, total due $50" (Json.str "Invoice") =
      .ok (Json.obj (fillRequiredKeys [("missing_fields", Json.arr [Json.str "due_date"])])) ∧
    (∀ k v, List.lookup k [("missing_fields", Json.arr [Json.str "due_date"])] = some v →
        List.lookup k (fillRequiredKeys [("missing_fields", Json.arr [Json.str "due_date"])]) =
          some v) ∧
    (∀ k, k ∈ required_keys →
        List.lookup k [("missing_fields", Json.arr [Json.str "due_date"])] = none →
        List.lookup k (fillRequiredKeys [("missing_fields", Json.arr [Json.str "due_date"])]) =
          some (if k = "completeness_score" then Json.num 0 else Json.arr [])) ∧
    (∀ k, k ∉ required_keys →
        List.lookup k (fillRequiredKeys [("missing_fields", Json.arr [Json.str "due_date"])]) =
          List.lookup k [("missing_fields", Json.arr [Json.str "due_date"])]) :=
  analyze_missing_fields_normalization oraclePartial "Invoice #123, total due $50" "Invoice"
    [("missing_fields", Json.arr [Json.str "due_date"])] rfl rfl

theorem fetchedDocType_primitive (row : Option AnalysisRow) :
    (fetchedDocType row).isPrimitive = true := by
  cases row with
  | none => rfl
  | some r =>
    show (if sqlTruthy r.doc_type = true then sqlToJson r.doc_type
          else Json.str "Unknown").isPrimitive = true
    by_cases h : sqlTruthy r.doc_type = true
    · rw [if_pos h]
      cases r.doc_type <;> rfl
    · rw [if_neg h]
      rfl

theorem toSqlValue_primitive (v : Json) (h : v.isPrimitive = true) :
    ∃ s, toSqlValue v = .ok s := by
  cases v with
  | null => exact ⟨.null, rfl⟩
  | bool b => exact ⟨.num (if b then 1 else 0), rfl⟩
  | num q => exact ⟨.num q, rfl⟩
  | str s => exact ⟨.text s, rfl⟩
  | arr xs => simp [Json.isPrimitive] at h
  | obj kvs => simp [Json.isPrimitive] at h

/-- C2: fetching a nonexistent id answers 404 with the not-found error;
fetching an existing id re-runs the gap analyzer on the stored text with
the stored-or-"Unknown" document type and answers 200 with a payload
whose `analysis` object carries all seven expected keys, for every
oracle — in particular when the model call fails — and whenever
re-analysis produces a non-dict value (reachable, e.g. when the model
answers with a JSON list holding the seven key strings, which survives
the normalization sweep), the served analysis object is exactly the
substituted fallback with
`critical_issues = ["Failed to analyze document"]`. -/
theorem get_analysis_result_spec (o : Oracle) (db : DB) (doc_id : Nat) :
    (db.documents.find? (fun d => d.id == doc_id) = none →
        get_analysis_result o db doc_id = (404, errJson "Document not found")) ∧
    (∀ d, db.documents.find? (fun d => d.id == doc_id) = some d →
        ∃ (ar : Json) (akvs : List (String × Json)),
          analyze_missing_fields o d.content
              (fetchedDocType (db.analysis_results.find? (fun r => r.doc_id == d.id))) =
            .ok ar ∧
          analysisPayload (if ar.isObj then ar else fetchFallbackReport) = .ok (Json.obj akvs) ∧
          get_analysis_result o db doc_id =
            (200, Json.obj
              [("document_id", Json.num d.id),
               ("filename", Json.str d.filename),
               ("classification",
                Json.obj [("document_type",
                           fetchedDocType (db.analysis_results.find? (fun r => r.doc_id == d.id))),
                          ("confidence_score",
                           fetchedConfidence (db.analysis_results.find? (fun r => r.doc_id == d.id)))]),
               ("analysis", Json.obj akvs)]) ∧
          (∀ k, k ∈ required_keys → (List.lookup k akvs).isSome = true) ∧
          (ar.isObj = false → Json.obj akvs = fetchFallbackReport)) := by
  constructor
  · intro h
    simp [get_analysis_result, h]
  · intro d hd
    obtain ⟨ar0, hak⟩ :=
      analyze_primitive_ok o d.content
        (fetchedDocType (db.analysis_results.find? (fun r => r.doc_id == d.id)))
        (fetchedDocType_primitive _)
    cases hobj : ar0.isObj with
    | true =>
      obtain ⟨akvs0, rfl⟩ : ∃ a, ar0 = Json.obj a := by
        cases ar0 <;> simp [Json.isObj] at hobj ⊢
      refine ⟨Json.obj akvs0, analysisViewKvs akvs0, hak, ?_, ?_,
        analysisViewKvs_keys akvs0, ?_⟩
      · simp [Json.isObj, analysisPayload_obj]
      · simp only [get_analysis_result, hd, hak, Json.isObj, if_true, analysisPayload_obj]
      · intro hfalse
        simp [Json.isObj] at hfalse
    | false =>
      refine ⟨ar0, fetchFallbackKvs, hak, ?_, ?_, ?_, fun _ => rfl⟩
      · rw [hobj]
        rfl
      · simp only [get_analysis_result, hd, hak, hobj, Bool.false_eq_true, if_false,
          fetchFallbackReport, analysisPayload_obj]
        rfl
      · exact fun k hk => analysisViewKvs_keys fetchFallbackKvs k hk

/-- C2 witness: a database holding one analyzed document with stored type
"Invoice" and an oracle answering with the surviving seven-key JSON
list — re-analysis returns the non-dict, the isinstance guard fires, and
the fallback analysis object is served; 404 exercised at id 2. -/
theorem get_analysis_result_spec_witness :
    (∃ (ar : Json) (akvs : List (String × Json)),
        analyze_missing_fields oracleSurvivor "Invoice #123, total due $50"
            (fetchedDocType (dbOneDocTyped.analysis_results.find? (fun r => r.doc_id == 1))) =
          .ok ar ∧
        analysisPayload (if ar.isObj then ar else fetchFallbackReport) = .ok (Json.obj akvs) ∧
        get_analysis_result oracleSurvivor dbOneDocTyped 1 =
          (200, Json.obj
            [("document_id", Json.num 1),
             ("filename", Json.str "doc.pdf"),
             ("classification",
              Json.obj [("document_type",
                         fetchedDocType (dbOneDocTyped.analysis_results.find?
                           (fun r => r.doc_id == 1))),
                        ("confidence_score",
                         fetchedConfidence (dbOneDocTyped.analysis_results.find?
                           (fun r => r.doc_id == 1)))]),
             ("analysis", Json.obj akvs)]) ∧
        (∀ k, k ∈ required_keys → (List.lookup k akvs).isSome = true) ∧
        (ar.isObj = false → Json.obj akvs = fetchFallbackReport)) ∧
    get_analysis_result oracleSurvivor dbOneDocTyped 2 = (404, errJson "Document not found") :=
  ⟨(get_analysis_result_spec oracleSurvivor dbOneDocTyped 1).2
      ⟨1, "doc.pdf", "Invoice #123, total due $50"⟩ rfl,
   (get_analysis_result_spec oracleSurvivor dbOneDocTyped 2).1 rfl⟩

theorem goodClassification_spec (j : Json) (h : goodClassification j = true) :
    ∃ kvs, j = Json.obj kvs ∧
      ((List.lookup "document_type" kvs).getD (Json.str "Other")).isPrimitive = true ∧
      ((List.lookup "confidence_score" kvs).getD (Json.num 0)).isPrimitive = true := by
  cases j with
  | obj kvs =>
    rw [goodClassification, Bool.and_eq_true] at h
    exact ⟨kvs, rfl, h.1, h.2⟩
  | null => cases h
  | bool b => cases h
  | num q => cases h
  | str s => cases h
  | arr xs => cases h

theorem uploadAnalysisSteps_good (o : Oracle) (db1 : DB) (doc_id : Nat) (fn t : String)
    (kvs akvs0 : List (String × Json)) (s1 s2 : SqlValue)
    (hckv : classify_document o t = Json.obj kvs)
    (hak : analyze_missing_fields o t
        ((List.lookup "document_type" kvs).getD (Json.str "Other")) = .ok (Json.obj akvs0))
    (hs1 : toSqlValue ((List.lookup "document_type" kvs).getD (Json.str "Other")) = .ok s1)
    (hs2 : toSqlValue ((List.lookup "confidence_score" kvs).getD (Json.num 0)) = .ok s2) :
    uploadAnalysisSteps o db1 doc_id fn t =
      .ok ({ db1 with
             analysis_results := db1.analysis_results ++
               [⟨db1.nextAnalysisId, doc_id, s1, s2,
                 ((List.lookup "missing_fields" akvs0).getD (Json.arr [])).dumps,
                 ((List.lookup "recommendations" akvs0).getD (Json.arr [])).dumps⟩],
             nextAnalysisId := db1.nextAnalysisId + 1 },
           201,
           Json.obj [("message", Json.str "File uploaded and analyzed successfully"),
                     ("document_id", Json.num doc_id),
                     ("filename", Json.str fn),
                     ("classification", Json.obj kvs),
                     ("analysis", Json.obj (analysisViewKvs akvs0))]) := by
  simp only [uploadAnalysisSteps, hckv, pyDictGet, Bind.bind, Except.bind, hak, hs1, hs2,
    analysisPayload_obj, pure, Except.pure]

/-- C1 (amended): an upload whose extraction succeeds, provided (a) the
classifier outcome is a dict whose `document_type` and
`confidence_score` values (when present) are primitives, and (b) the
gap-analyzer outcome on the resulting document type is a dict — both of
which hold in particular whenever the respective external calls fail,
since the sentinel, degraded and trivial reports are such dicts —
inserts exactly one Document and exactly one AnalysisResult whose
`doc_id` is the new Document id, and answers 201 with the composite
payload.  Without (a) the request fails with 500 after the Document
commit and no AnalysisResult is created (see the counterexample);
without (b) — possible exactly when a non-dict analyzer answer carries
all seven expected keys and so survives the normalization sweep — the
`.get` reads raise the same way. -/
theorem upload_pipeline (o : Oracle) (db : DB) (req : UploadRequest) (t : String)
    (h1 : req.hasFilePart = true) (h2 : req.filename ≠ "")
    (h3 : allowed_file req.filename = true)
    (h4 : o.fitzText (UPLOAD_FOLDER ++ "/" ++ o.secureFilename req.filename) = some t)
    (h5 : goodClassification (classify_document o t) = true)
    (h6 : exceptIsObj (analyze_missing_fields o t (classifiedDocType o t)) = true) :
    ∃ (row : AnalysisRow) (akvs : List (String × Json)),
      upload_and_analyze_document o db req =
        ({ documents := db.documents ++ [⟨db.nextDocId, o.secureFilename req.filename, t⟩],
           analysis_results := db.analysis_results ++ [row],
           nextDocId := db.nextDocId + 1,
           nextAnalysisId := db.nextAnalysisId + 1 },
         .ok (201,
           Json.obj [("message", Json.str "File uploaded and analyzed successfully"),
                     ("document_id", Json.num db.nextDocId),
                     ("filename", Json.str (o.secureFilename req.filename)),
                     ("classification", classify_document o t),
                     ("analysis", Json.obj akvs)])) ∧
      row.doc_id = db.nextDocId ∧
      row.id = db.nextAnalysisId ∧
      (∀ k, k ∈ required_keys → (List.lookup k akvs).isSome = true) := by
  obtain ⟨kvs, hckv, hdtp, hcfp⟩ := goodClassification_spec _ h5
  have hcd : classifiedDocType o t =
      (List.lookup "document_type" kvs).getD (Json.str "Other") := by
    unfold classifiedDocType
    rw [hckv]
  rw [hcd] at h6
  obtain ⟨akvs0, hak⟩ : ∃ a,
      analyze_missing_fields o t ((List.lookup "document_type" kvs).getD (Json.str "Other")) =
        .ok (Json.obj a) := by
    cases hr : analyze_missing_fields o t
        ((List.lookup "document_type" kvs).getD (Json.str "Other")) with
    | error e =>
      rw [hr] at h6
      exact Bool.noConfusion h6
    | ok r =>
      rw [hr] at h6
      cases r with
      | obj a => exact ⟨a, rfl⟩
      | null => exact Bool.noConfusion h6
      | bool b => exact Bool.noConfusion h6
      | num q => exact Bool.noConfusion h6
      | str s => exact Bool.noConfusion h6
      | arr xs => exact Bool.noConfusion h6
  obtain ⟨s1, hs1⟩ := toSqlValue_primitive _ hdtp
  obtain ⟨s2, hs2⟩ := toSqlValue_primitive _ hcfp
  refine ⟨⟨db.nextAnalysisId, db.nextDocId, s1, s2,
           ((List.lookup "missing_fields" akvs0).getD (Json.arr [])).dumps,
           ((List.lookup "recommendations" akvs0).getD (Json.arr [])).dumps⟩,
         analysisViewKvs akvs0, ?_, rfl, rfl, analysisViewKvs_keys akvs0⟩
  rw [hckv]
  simp only [upload_and_analyze_document, h1, h2, h3, extract_text_from_pdf, h4,
    uploadAnalysisSteps_good o _ db.nextDocId (o.secureFilename req.filename) t kvs akvs0 s1 s2
      hckv hak hs1 hs2]
  simp

/-- C1 witness: with both external calls failing, one Document and one
AnalysisResult are created and the 201 composite payload is returned. -/
theorem upload_pipeline_witness :
    ∃ (row : AnalysisRow) (akvs : List (String × Json)),
      upload_and_analyze_document oracleFail dbEmpty reqPdf =
        ({ documents := dbEmpty.documents ++
             [⟨dbEmpty.nextDocId, oracleFail.secureFilename reqPdf.filename,
               "Invoice #123, total due $50"⟩],
           analysis_results := dbEmpty.analysis_results ++ [row],
           nextDocId := dbEmpty.nextDocId + 1,
           nextAnalysisId := dbEmpty.nextAnalysisId + 1 },
         .ok (201,
           Json.obj [("message", Json.str "File uploaded and analyzed successfully"),
                     ("document_id", Json.num dbEmpty.nextDocId),
                     ("filename", Json.str (oracleFail.secureFilename reqPdf.filename)),
                     ("classification", classify_document oracleFail "Invoice #123, total due $50"),
                     ("analysis", Json.obj akvs)])) ∧
      row.doc_id = dbEmpty.nextDocId ∧
      row.id = dbEmpty.nextAnalysisId ∧
      (∀ k, k ∈ required_keys → (List.lookup k akvs).isSome = true) :=
  upload_pipeline oracleFail dbEmpty reqPdf "Invoice #123, total due $50"
    rfl (by decide) rfl rfl rfl rfl

/-- C1 counterexample: when the model's classify response parses to valid
JSON that is a list (not an object), `classification_result.get` raises
`AttributeError` after the Document insert was committed — the request
does not return 201, the Document row exists, and no AnalysisResult row
is created, falsifying the unconditional claim. -/
theorem upload_pipeline_counterexample :
    upload_and_analyze_document oracleNonObj dbEmpty reqPdf =
      ({ documents := [⟨1, "doc.pdf", "some text"⟩],
         analysis_results := [],
         nextDocId := 2,
         nextAnalysisId := 1 },
       .error PyErr.attributeError) := rfl

